import Mathlib

/-!
Verification of the issue-categorization and geographic-clustering core of the
`verde` worker scripts.

The development shallowly embeds, over `ℝ` and Lean `String`s:

* `FinalBostonScraper` (worker/final_boston_scraper.py): the keyword table
  `ENVIRONMENTAL_CATEGORIES`, `categorize_issue`, `cluster_nearby_issues`,
  `_haversine_distance`, and the cluster-center computation of
  `create_event_from_cluster`;
* `Open311Scraper` (worker/event_scraping.py): its distance-only
  `cluster_nearby_issues` and `_determine_event_category`;
* `EnhancedEventScraper` (worker/enhanced_event_scraper.py): its
  `ENVIRONMENTAL_MAPPINGS` table and `Optional`-returning `categorize_issue`.

Python floats are modelled as real numbers; Python strings as `String`;
Python's substring operator `in` as the executable `strContains` below.
-/

/-- Bool test: does the character list `sub` occur at the very start of `hay`?
Building block for the model of Python's substring operator `in`. -/
def charsStartWith : List Char → List Char → Bool
  | [], _ => true
  | _ :: _, [] => false
  | c :: cs, d :: ds => c == d && charsStartWith cs ds

/-- Bool test: does the character list `sub` occur contiguously inside `hay`?
Model of Python's `sub in hay` on strings, on the character-list level. -/
def charsContain (sub : List Char) : List Char → Bool
  | [] => charsStartWith sub []
  | c :: t => charsStartWith sub (c :: t) || charsContain sub t

/-- Model of Python's `sub in hay` substring test on strings. -/
def strContains (hay sub : String) : Bool :=
  charsContain sub.toList hay.toList

/-- Model of Python's `str.lower()` (ASCII case folding, via `Char.toLower`),
written as a character-list map so that it evaluates by kernel reduction. -/
def lower (s : String) : String :=
  String.mk (s.toList.map Char.toLower)

/-- The `EventCategory` enumeration of worker/models.py (lines 70-74). -/
inductive EventCategory where
  | cleanup
  | advocacy
  | education
  | other
deriving DecidableEq, Repr

namespace FinalBostonScraper

/-- The fields of the `BostonIssue` dataclass of worker/final_boston_scraper.py
that are read by `categorize_issue`, `cluster_nearby_issues`,
`_haversine_distance` and the center computation of `create_event_from_cluster`
(the remaining fields — dates, status, queue, department, location strings,
photos — are never read by those operations and are omitted here). -/
structure BostonIssue where
  case_enquiry_id : String
  case_title : String
  subject : String
  reason : String
  latitude : ℝ
  longitude : ℝ

/-- One entry of the `ENVIRONMENTAL_CATEGORIES` table: the three per-category
keyword lists of worker/final_boston_scraper.py. -/
structure CategoryData where
  case_titles : List String
  subjects : List String
  keywords : List String

/-- The `ENVIRONMENTAL_CATEGORIES` table of worker/final_boston_scraper.py
(lines 62-108), in its Python dict insertion order
(`cleanup`, `advocacy`, `education`). -/
def ENVIRONMENTAL_CATEGORIES : List (EventCategory × CategoryData) :=
  [(EventCategory.cleanup,
    { case_titles := ["Improper Storage of Trash (Barrels)", "CE Collection",
        "Graffiti Removal", "Requests for Street Cleaning", "Empty Litter Basket",
        "Pick up Dead Animal", "Abandoned Vehicles", "Bulk Item Collection",
        "Illegal Dumping", "Overflowing Litter Baskets", "Dirty Conditions"],
      subjects := ["Public Works Department", "Street Cleaning", "Graffiti",
        "Highway Maintenance", "Code Enforcement"],
      keywords := ["trash", "garbage", "litter", "graffiti", "cleaning", "dumping",
        "abandoned", "dead animal", "debris", "collection", "removal"] }),
   (EventCategory.advocacy,
    { case_titles := ["Air Pollution Control", "Noise Disturbance", "Water Quality",
        "Industrial Waste", "Environmental Hazard", "Toxic Material",
        "Sewage/Septic", "Odor", "Chemical Spill"],
      subjects := ["Environmental Services", "Air Quality", "Water Quality",
        "Hazardous Materials", "Industrial Compliance"],
      keywords := ["pollution", "noise", "air quality", "water", "toxic", "hazard",
        "chemical", "industrial", "sewage", "odor", "contamination"] }),
   (EventCategory.education,
    { case_titles := ["Recycling", "Composting Program", "Environmental Education",
        "Green Initiative", "Sustainability Program"],
      subjects := ["Recycling", "Environmental Education", "Sustainability",
        "Green Programs", "Conservation"],
      keywords := ["recycling", "composting", "education", "green", "sustainability",
        "conservation", "program", "initiative", "awareness"] })]

/-- The per-category matching step inside the loop of `categorize_issue`
(worker/final_boston_scraper.py lines 243-258): the entry matches when some
`case_titles` phrase (lowered) occurs in the lowered case title, or some
`subjects` phrase (lowered) occurs in the lowered subject, or some keyword
occurs in the concatenation of the three lowered text fields.
The arguments `case_title subject reason` are the already-lowered fields. -/
def matchesCategory (data : CategoryData) (case_title subject reason : String) : Bool :=
  data.case_titles.any (fun t => strContains case_title (lower t)) ||
  data.subjects.any (fun s => strContains subject (lower s)) ||
  data.keywords.any (fun k =>
    strContains (case_title ++ " " ++ subject ++ " " ++ reason) k)

/-- `FinalBostonScraper.categorize_issue` (worker/final_boston_scraper.py
lines 236-261): lower the three text fields, return the first category of
`ENVIRONMENTAL_CATEGORIES` whose entry matches, else default to `cleanup`. -/
def categorize_issue (issue : BostonIssue) : EventCategory :=
  match ENVIRONMENTAL_CATEGORIES.find? (fun p =>
      matchesCategory p.2
        (lower issue.case_title) (lower issue.subject) (lower issue.reason)) with
  | some p => p.1
  | none => EventCategory.cleanup

/-- Python's `math.radians`: degrees to radians. -/
noncomputable def radians (x : ℝ) : ℝ :=
  x * Real.pi / 180

/-- The intermediate value `a` of `_haversine_distance`
(worker/final_boston_scraper.py line 452):
`a = sin(dlat/2)**2 + cos(lat1) * cos(lat2) * sin(dlng/2)**2`,
all four coordinates first converted to radians. -/
noncomputable def haversine_a (lat1 lng1 lat2 lng2 : ℝ) : ℝ :=
  Real.sin ((radians lat2 - radians lat1) / 2) ^ 2 +
    Real.cos (radians lat1) * Real.cos (radians lat2) *
      Real.sin ((radians lng2 - radians lng1) / 2) ^ 2

/-- `FinalBostonScraper._haversine_distance` (worker/final_boston_scraper.py
lines 444-455): `c = 2 * asin(sqrt(a))`, returning `c * 6371`.
The identical formula also appears verbatim as `_haversine_distance` in
worker/event_scraping.py and worker/enhanced_event_scraper.py; all three
variants are modelled by this one definition. -/
noncomputable def _haversine_distance (lat1 lng1 lat2 lng2 : ℝ) : ℝ :=
  2 * Real.arcsin (Real.sqrt (haversine_a lat1 lng1 lat2 lng2)) * 6371

/-- The body of the inner scan of `FinalBostonScraper.cluster_nearby_issues`
(worker/final_boston_scraper.py lines 426-438): a candidate joins the current
cluster exactly when its category equals the seed's category and its haversine
distance to the seed is at most `max_distance_km`. -/
noncomputable def issueMatches (seed other : BostonIssue) (maxd : ℝ) : Bool :=
  decide (categorize_issue other = categorize_issue seed) &&
  decide (_haversine_distance seed.latitude seed.longitude
            other.latitude other.longitude ≤ maxd)

/-- `FinalBostonScraper.cluster_nearby_issues` (worker/final_boston_scraper.py
lines 404-442). The Python loop keeps a `used_indices` set; when index `i`
becomes a seed every index before it is already used, so the unused records at
that moment are exactly the not-yet-assigned records after the seed, in input
order. The loop is therefore embedded as: take the first unassigned record as
seed, move every later unassigned record that satisfies `issueMatches` into the
seed's cluster (in input order), and recurse on the records that did not match. -/
noncomputable def cluster_nearby_issues (issues : List BostonIssue) (maxd : ℝ) :
    List (List BostonIssue) :=
  match issues with
  | [] => []
  | seed :: rest =>
      (seed :: rest.filter (fun o => issueMatches seed o maxd)) ::
        cluster_nearby_issues (rest.filter (fun o => !issueMatches seed o maxd)) maxd
termination_by issues.length
decreasing_by
  simp only [List.length_cons]
  exact Nat.lt_succ_of_le (List.length_filter_le _ _)

/-- The cluster center computed by `create_event_from_cluster`
(worker/final_boston_scraper.py lines 466-467):
`center_lat = sum(issue.latitude for issue in cluster) / len(cluster)` and
likewise for longitude; Python's `sum` is a left fold starting from `0`. -/
noncomputable def clusterCenter (cluster : List BostonIssue) : ℝ × ℝ :=
  (cluster.foldl (fun acc issue => acc + issue.latitude) 0 / cluster.length,
   cluster.foldl (fun acc issue => acc + issue.longitude) 0 / cluster.length)

end FinalBostonScraper

namespace Open311Scraper

/-- The fields of the `Open311Issue` dataclass of worker/event_scraping.py read
by `cluster_nearby_issues` and `_determine_event_category` (the remaining
fields — service code, status, address, dates, agency, media URL — are never
read by those operations and are omitted here). -/
structure Open311Issue where
  service_request_id : String
  service_name : String
  description : String
  lat : ℝ
  lng : ℝ

/-- The body of the inner scan of `Open311Scraper.cluster_nearby_issues`
(worker/event_scraping.py lines 278-291): a candidate joins the current cluster
exactly when its haversine distance to the seed is at most `max_distance_km` —
this variant performs no category comparison at all. -/
noncomputable def issueNear (seed other : Open311Issue) (maxd : ℝ) : Bool :=
  decide (FinalBostonScraper._haversine_distance seed.lat seed.lng
            other.lat other.lng ≤ maxd)

/-- `Open311Scraper.cluster_nearby_issues` (worker/event_scraping.py
lines 262-294): same greedy used-set loop as the FinalBostonScraper variant
(embedded the same way, see `FinalBostonScraper.cluster_nearby_issues`), but the
candidate test is distance-only. -/
noncomputable def cluster_nearby_issues (issues : List Open311Issue) (maxd : ℝ) :
    List (List Open311Issue) :=
  match issues with
  | [] => []
  | seed :: rest =>
      (seed :: rest.filter (fun o => issueNear seed o maxd)) ::
        cluster_nearby_issues (rest.filter (fun o => !issueNear seed o maxd)) maxd
termination_by issues.length
decreasing_by
  simp only [List.length_cons]
  exact Nat.lt_succ_of_le (List.length_filter_le _ _)

/-- `Open311Scraper._determine_event_category` (worker/event_scraping.py
lines 377-387): join every member's `service_name` and `description` with
spaces, lower the result, and return the first of `cleanup`, `advocacy`,
`education` whose word list hits, defaulting to `cleanup`. -/
def _determine_event_category (cluster : List Open311Issue) : EventCategory :=
  let text := lower (String.intercalate " "
    (cluster.map (fun issue => issue.service_name ++ " " ++ issue.description)))
  if ["cleanup", "trash", "waste", "litter", "dumping"].any
      (fun word => strContains text word) then
    EventCategory.cleanup
  else if ["advocacy", "policy", "petition", "meeting"].any
      (fun word => strContains text word) then
    EventCategory.advocacy
  else if ["education", "awareness", "workshop", "training"].any
      (fun word => strContains text word) then
    EventCategory.education
  else
    EventCategory.cleanup

end Open311Scraper

namespace EnhancedEventScraper

/-- The fields of the `EnvironmentalIssue` dataclass of
worker/enhanced_event_scraper.py read by `categorize_issue` (the remaining
fields are never read by it and are omitted here). -/
structure EnvironmentalIssue where
  unique_key : String
  complaint_type : String
  descriptor : String
  lat : ℝ
  lng : ℝ

/-- One entry of the `ENVIRONMENTAL_MAPPINGS` table of
worker/enhanced_event_scraper.py: keyword list, exact complaint-type list, and
the event category the entry maps to. -/
structure MappingData where
  keywords : List String
  complaint_types : List String
  category : EventCategory

/-- The `ENVIRONMENTAL_MAPPINGS` table of worker/enhanced_event_scraper.py
(lines 87-132), in its Python dict insertion order. -/
def ENVIRONMENTAL_MAPPINGS : List (String × MappingData) :=
  [("cleanup",
    { keywords := ["illegal dumping", "litter", "trash", "garbage", "debris",
        "waste", "graffiti", "abandoned vehicle", "bulk item", "mattress",
        "furniture", "construction debris", "yard waste", "electronic waste",
        "hazardous waste", "street cleaning", "sidewalk cleaning",
        "park maintenance", "beach cleanup"],
      complaint_types := ["Illegal Dumping", "Street/Sidewalk",
        "Sanitation Condition", "Graffiti", "Abandoned Vehicle", "Bulk Item",
        "Dead Animal", "Overflowing Litter Baskets", "Dirty Conditions",
        "Sweeping/Cleaning", "Litter Basket / Request"],
      category := EventCategory.cleanup }),
   ("advocacy",
    { keywords := ["air quality", "noise", "pollution", "environmental", "toxic",
        "contamination", "industrial", "emissions", "odor", "chemical", "hazmat",
        "spill", "leak", "water quality", "sewage", "storm drain",
        "illegal discharge"],
      complaint_types := ["Air Quality", "Noise", "Water Quality",
        "Industrial Waste", "Hazmat", "Environmental", "Toxic Material",
        "Chemical Spill", "Sewage", "Illegal Discharge", "Odor/Gas",
        "Indoor Air Quality"],
      category := EventCategory.advocacy }),
   ("education",
    { keywords := ["recycling", "composting", "sustainability", "green", "energy",
        "conservation", "education", "outreach", "awareness", "program"],
      complaint_types := ["Recycling", "Composting", "Energy", "Green Program",
        "Sustainability", "Environmental Education", "Conservation"],
      category := EventCategory.education })]

/-- The per-mapping matching step inside the loop of
`EnhancedEventScraper.categorize_issue` (worker/enhanced_event_scraper.py
lines 280-288): exact (case-sensitive) membership of the issue's
`complaint_type` in the entry's `complaint_types`, else some keyword occurring
in the lowered concatenation of `complaint_type` and `descriptor`. -/
def mappingMatches (data : MappingData) (complaint_type text : String) : Bool :=
  data.complaint_types.contains complaint_type ||
  data.keywords.any (fun k => strContains text k)

/-- `EnhancedEventScraper.categorize_issue` (worker/enhanced_event_scraper.py
lines 275-290): return the category of the first matching mapping, and — unlike
the FinalBostonScraper variant — `None` when no mapping matches. -/
def categorize_issue (issue : EnvironmentalIssue) : Option EventCategory :=
  match ENVIRONMENTAL_MAPPINGS.find? (fun p =>
      mappingMatches p.2 issue.complaint_type
        (lower (issue.complaint_type ++ " " ++ issue.descriptor))) with
  | some p => some p.2.category
  | none => none

end EnhancedEventScraper

/-- Modelled from the spec: the distance metric of section 4.2, written from the
spec's own words — "convert both points' latitude/longitude to radians,
`a = sin²(Δlat/2) + cos(lat1)·cos(lat2)·sin²(Δlng/2)`,
`distance = 6371 · 2·asin(√a)`". Kept separate from the code-derived
`FinalBostonScraper._haversine_distance` so the two can be compared. -/
noncomputable def haversineSpec (lat1 lng1 lat2 lng2 : ℝ) : ℝ :=
  6371 * (2 * Real.arcsin (Real.sqrt
    (Real.sin ((FinalBostonScraper.radians lat2 - FinalBostonScraper.radians lat1) / 2) ^ 2 +
      Real.cos (FinalBostonScraper.radians lat1) * Real.cos (FinalBostonScraper.radians lat2) *
        Real.sin ((FinalBostonScraper.radians lng2 - FinalBostonScraper.radians lng1) / 2) ^ 2)))

/-- Modelled from the spec: the center point of section 6, written from the
spec's own words — "a computed center point (arithmetic mean of member
latitudes/longitudes)". Kept separate from the code-derived
`FinalBostonScraper.clusterCenter` so the two can be compared. -/
noncomputable def clusterCenterSpec (cluster : List FinalBostonScraper.BostonIssue) : ℝ × ℝ :=
  ((cluster.map (fun issue => issue.latitude)).sum / cluster.length,
   (cluster.map (fun issue => issue.longitude)).sum / cluster.length)

namespace FinalBostonScraper

/-- Two records with matching `cleanup` categories at the same point
(used to exercise the clusterer on a concrete input). -/
def issueA : BostonIssue :=
  { case_enquiry_id := "100", case_title := "Illegal Dumping", subject := "",
    reason := "", latitude := 0, longitude := 0 }

/-- Companion record of `issueA`: same point, also `cleanup`. -/
def issueB : BostonIssue :=
  { case_enquiry_id := "101", case_title := "Graffiti Removal", subject := "",
    reason := "", latitude := 0, longitude := 0 }

/-- Equator seed at longitude 0 (concrete input for the single-hop property). -/
def issueS : BostonIssue :=
  { case_enquiry_id := "200", case_title := "Illegal Dumping", subject := "",
    reason := "", latitude := 0, longitude := 0 }

/-- Equator record 0.01 degrees east of `issueS`. -/
noncomputable def issueE : BostonIssue :=
  { case_enquiry_id := "201", case_title := "Illegal Dumping", subject := "",
    reason := "", latitude := 0, longitude := 1 / 100 }

/-- Equator record 0.01 degrees west of `issueS`. -/
noncomputable def issueW : BostonIssue :=
  { case_enquiry_id := "202", case_title := "Illegal Dumping", subject := "",
    reason := "", latitude := 0, longitude := -(1 / 100) }

/-- A record whose text fields match no entry of `ENVIRONMENTAL_CATEGORIES`. -/
def bostonEmpty : BostonIssue :=
  { case_enquiry_id := "401", case_title := "", subject := "", reason := "",
    latitude := 0, longitude := 0 }

end FinalBostonScraper

namespace Open311Scraper

/-- Open311 record whose text categorizes as `cleanup`. -/
def o311A : Open311Issue :=
  { service_request_id := "300", service_name := "Trash", description := "",
    lat := 0, lng := 0 }

/-- Open311 record at the same point whose text categorizes as `education`. -/
def o311B : Open311Issue :=
  { service_request_id := "301", service_name := "Environmental Education Workshop",
    description := "", lat := 0, lng := 0 }

end Open311Scraper

namespace EnhancedEventScraper

/-- A record whose complaint type and descriptor match no entry of
`ENVIRONMENTAL_MAPPINGS`. -/
def envEmpty : EnvironmentalIssue :=
  { unique_key := "400", complaint_type := "", descriptor := "", lat := 0, lng := 0 }

end EnhancedEventScraper

namespace FinalBostonScraper

lemma sin_half_sq (x : ℝ) : Real.sin (x / 2) ^ 2 = (1 - Real.cos x) / 2 := by
  have h := Real.cos_sq (x / 2)
  have h2 := Real.sin_sq (x / 2)
  rw [h, show 2 * (x / 2) = x by ring] at h2
  linarith

lemma radians_zero : radians 0 = 0 := by
  simp [radians]

lemma radians_bounds (lat : ℝ) (h1 : -90 ≤ lat) (h2 : lat ≤ 90) :
    -(Real.pi / 2) ≤ radians lat ∧ radians lat ≤ Real.pi / 2 := by
  have hp := Real.pi_pos
  constructor
  · unfold radians; nlinarith
  · unfold radians; nlinarith

lemma haversine_a_nonneg (lat1 lng1 lat2 lng2 : ℝ)
    (h1 : -90 ≤ lat1) (h2 : lat1 ≤ 90) (h3 : -90 ≤ lat2) (h4 : lat2 ≤ 90) :
    0 ≤ haversine_a lat1 lng1 lat2 lng2 := by
  have b1 := radians_bounds lat1 h1 h2
  have b2 := radians_bounds lat2 h3 h4
  have c1 : 0 ≤ Real.cos (radians lat1) :=
    Real.cos_nonneg_of_mem_Icc ⟨b1.1, b1.2⟩
  have c2 : 0 ≤ Real.cos (radians lat2) :=
    Real.cos_nonneg_of_mem_Icc ⟨b2.1, b2.2⟩
  unfold haversine_a
  exact add_nonneg (sq_nonneg _) (mul_nonneg (mul_nonneg c1 c2) (sq_nonneg _))

lemma haversine_a_le_one (lat1 lng1 lat2 lng2 : ℝ)
    (h1 : -90 ≤ lat1) (h2 : lat1 ≤ 90) (h3 : -90 ≤ lat2) (h4 : lat2 ≤ 90) :
    haversine_a lat1 lng1 lat2 lng2 ≤ 1 := by
  have b1 := radians_bounds lat1 h1 h2
  have b2 := radians_bounds lat2 h3 h4
  have c1 : 0 ≤ Real.cos (radians lat1) :=
    Real.cos_nonneg_of_mem_Icc ⟨b1.1, b1.2⟩
  have c2 : 0 ≤ Real.cos (radians lat2) :=
    Real.cos_nonneg_of_mem_Icc ⟨b2.1, b2.2⟩
  unfold haversine_a
  have hhalf := sin_half_sq (radians lat2 - radians lat1)
  have hsub := Real.cos_sub (radians lat2) (radians lat1)
  have hadd := Real.cos_add (radians lat1) (radians lat2)
  have hle := Real.cos_le_one (radians lat1 + radians lat2)
  have hs1 := Real.sin_sq_le_one ((radians lng2 - radians lng1) / 2)
  nlinarith [mul_nonneg c1 c2,
    sq_nonneg (Real.sin ((radians lng2 - radians lng1) / 2))]

lemma haversine_nonneg (lat1 lng1 lat2 lng2 : ℝ) :
    0 ≤ _haversine_distance lat1 lng1 lat2 lng2 := by
  have h : 0 ≤ Real.arcsin (Real.sqrt (haversine_a lat1 lng1 lat2 lng2)) :=
    Real.arcsin_nonneg.mpr (Real.sqrt_nonneg _)
  unfold _haversine_distance
  nlinarith

lemma sq_sin_symm (x y : ℝ) :
    Real.sin ((x - y) / 2) ^ 2 = Real.sin ((y - x) / 2) ^ 2 := by
  rw [show (x - y) / 2 = -((y - x) / 2) by ring, Real.sin_neg, neg_sq]

lemma haversine_a_symm (lat1 lng1 lat2 lng2 : ℝ) :
    haversine_a lat1 lng1 lat2 lng2 = haversine_a lat2 lng2 lat1 lng1 := by
  unfold haversine_a
  rw [sq_sin_symm (radians lat2) (radians lat1), sq_sin_symm (radians lng2) (radians lng1),
    mul_comm (Real.cos (radians lat1)) (Real.cos (radians lat2))]

lemma haversine_symm (lat1 lng1 lat2 lng2 : ℝ) :
    _haversine_distance lat1 lng1 lat2 lng2 = _haversine_distance lat2 lng2 lat1 lng1 := by
  unfold _haversine_distance
  rw [haversine_a_symm]

lemma haversine_self (lat lng : ℝ) :
    _haversine_distance lat lng lat lng = 0 := by
  unfold _haversine_distance haversine_a
  simp

lemma abs_sin_eq (t : ℝ) (h : |t| ≤ Real.pi) : |Real.sin t| = Real.sin |t| := by
  rcases le_or_lt 0 t with hpos | hneg
  · rw [abs_of_nonneg hpos] at h ⊢
    exact abs_of_nonneg (Real.sin_nonneg_of_nonneg_of_le_pi hpos h)
  · rw [abs_of_neg hneg] at h ⊢
    have hs : 0 ≤ Real.sin (-t) :=
      Real.sin_nonneg_of_nonneg_of_le_pi (by linarith) h
    rw [Real.sin_neg] at hs
    rw [abs_of_nonpos (by linarith), Real.sin_neg]

lemma haversine_equator (g1 g2 : ℝ) (h : |radians g2 - radians g1| ≤ Real.pi) :
    _haversine_distance 0 g1 0 g2 = 6371 * |radians g2 - radians g1| := by
  set d := radians g2 - radians g1 with hd
  have habs : |d / 2| = |d| / 2 := by
    rw [abs_div]
    norm_num
  have hdle : |d / 2| ≤ Real.pi := by
    rw [habs]
    linarith [abs_nonneg d, Real.pi_pos]
  have h1 : _haversine_distance 0 g1 0 g2
      = 2 * Real.arcsin (Real.sqrt (Real.sin (d / 2) ^ 2)) * 6371 := by
    unfold _haversine_distance haversine_a
    rw [radians_zero]
    simp
  rw [h1, Real.sqrt_sq_eq_abs, abs_sin_eq _ hdle, habs,
    Real.arcsin_sin (by linarith [abs_nonneg d, Real.pi_pos]) (by linarith)]
  ring

end FinalBostonScraper

namespace FinalBostonScraper

lemma cluster_nil (maxd : ℝ) : cluster_nearby_issues [] maxd = [] := by
  rw [cluster_nearby_issues]

lemma cluster_cons (seed : BostonIssue) (rest : List BostonIssue) (maxd : ℝ) :
    cluster_nearby_issues (seed :: rest) maxd =
      (seed :: rest.filter (fun o => issueMatches seed o maxd)) ::
        cluster_nearby_issues (rest.filter (fun o => !issueMatches seed o maxd)) maxd := by
  rw [cluster_nearby_issues]

lemma cluster_shape_aux : ∀ (n : ℕ) (issues : List BostonIssue), issues.length ≤ n →
    ∀ (maxd : ℝ) (c : List BostonIssue), c ∈ cluster_nearby_issues issues maxd →
    ∃ seed rest, c = seed :: rest ∧ ∀ m ∈ rest, issueMatches seed m maxd = true := by
  intro n
  induction n with
  | zero =>
    intro issues hlen maxd c hc
    have hnil : issues = [] := List.eq_nil_of_length_eq_zero (Nat.le_zero.mp hlen)
    subst hnil
    rw [cluster_nil] at hc
    simp at hc
  | succ n ih =>
    intro issues hlen maxd c hc
    match issues with
    | [] =>
      rw [cluster_nil] at hc
      simp at hc
    | seed :: rest =>
      rw [cluster_cons] at hc
      rcases List.mem_cons.mp hc with h | h
      · refine ⟨seed, rest.filter (fun o => issueMatches seed o maxd), h, ?_⟩
        intro m hm
        exact (List.mem_filter.mp hm).2
      · have hlen2 : (rest.filter (fun o => !issueMatches seed o maxd)).length ≤ n := by
          have hf := List.length_filter_le (fun o => !issueMatches seed o maxd) rest
          simp only [List.length_cons] at hlen
          omega
        exact ih _ hlen2 maxd c h

/-- Every output cluster is nonempty, and every non-seed member passed the
seed comparison `issueMatches`. -/
lemma cluster_shape (issues : List BostonIssue) (maxd : ℝ) (c : List BostonIssue)
    (hc : c ∈ cluster_nearby_issues issues maxd) :
    ∃ seed rest, c = seed :: rest ∧ ∀ m ∈ rest, issueMatches seed m maxd = true :=
  cluster_shape_aux issues.length issues le_rfl maxd c hc

lemma cluster_perm_aux : ∀ (n : ℕ) (issues : List BostonIssue), issues.length ≤ n →
    ∀ maxd : ℝ, (cluster_nearby_issues issues maxd).flatten.Perm issues := by
  intro n
  induction n with
  | zero =>
    intro issues hlen maxd
    have hnil : issues = [] := List.eq_nil_of_length_eq_zero (Nat.le_zero.mp hlen)
    subst hnil
    rw [cluster_nil]
    exact List.Perm.refl _
  | succ n ih =>
    intro issues hlen maxd
    match issues with
    | [] =>
      rw [cluster_nil]
      exact List.Perm.refl _
    | seed :: rest =>
      rw [cluster_cons]
      simp only [List.flatten_cons, List.cons_append]
      refine List.Perm.cons seed ?_
      have hlen2 : (rest.filter (fun o => !issueMatches seed o maxd)).length ≤ n := by
        have hf := List.length_filter_le (fun o => !issueMatches seed o maxd) rest
        simp only [List.length_cons] at hlen
        omega
      exact ((ih _ hlen2 maxd).append_left _).trans
        (List.filter_append_perm (fun o => issueMatches seed o maxd) rest)

end FinalBostonScraper

namespace Open311Scraper

lemma o311_cluster_nil (maxd : ℝ) : cluster_nearby_issues [] maxd = [] := by
  rw [cluster_nearby_issues]

lemma o311_cluster_cons (seed : Open311Issue) (rest : List Open311Issue) (maxd : ℝ) :
    cluster_nearby_issues (seed :: rest) maxd =
      (seed :: rest.filter (fun o => issueNear seed o maxd)) ::
        cluster_nearby_issues (rest.filter (fun o => !issueNear seed o maxd)) maxd := by
  rw [cluster_nearby_issues]

lemma near_AB : issueNear o311A o311B 1 = true := by
  unfold issueNear
  rw [decide_eq_true_eq]
  have h0 : FinalBostonScraper._haversine_distance o311A.lat o311A.lng
      o311B.lat o311B.lng = 0 := FinalBostonScraper.haversine_self 0 0
  rw [h0]
  norm_num

lemma o311_cluster_AB : cluster_nearby_issues [o311A, o311B] 1 = [[o311A, o311B]] := by
  rw [o311_cluster_cons]
  simp [List.filter_cons, near_AB, o311_cluster_nil]

end Open311Scraper

namespace FinalBostonScraper

lemma matches_AB : issueMatches issueA issueB 1 = true := by
  unfold issueMatches
  rw [Bool.and_eq_true, decide_eq_true_eq, decide_eq_true_eq]
  refine ⟨by decide, ?_⟩
  have h0 : _haversine_distance issueA.latitude issueA.longitude
      issueB.latitude issueB.longitude = 0 := haversine_self 0 0
  rw [h0]
  norm_num

lemma cluster_AB : cluster_nearby_issues [issueA, issueB] 1 = [[issueA, issueB]] := by
  rw [cluster_cons]
  simp [List.filter_cons, matches_AB, cluster_nil]

lemma dist_SE : _haversine_distance 0 0 0 (1 / 100) ≤ 2 := by
  have hpi := Real.pi_pos
  have hlt := Real.pi_lt_d2
  have habs : |radians (1 / 100) - radians 0| = Real.pi / 18000 := by
    rw [radians_zero, sub_zero, abs_of_nonneg (by unfold radians; positivity)]
    unfold radians
    ring
  rw [haversine_equator 0 (1 / 100) (by rw [habs]; nlinarith), habs]
  nlinarith

lemma dist_SW : _haversine_distance 0 0 0 (-(1 / 100)) ≤ 2 := by
  have hpi := Real.pi_pos
  have hlt := Real.pi_lt_d2
  have habs : |radians (-(1 / 100)) - radians 0| = Real.pi / 18000 := by
    rw [radians_zero, sub_zero]
    rw [show radians (-(1 / 100)) = -(Real.pi / 18000) from by unfold radians; ring]
    rw [abs_neg, abs_of_nonneg (by positivity)]
  rw [haversine_equator 0 (-(1 / 100)) (by rw [habs]; nlinarith), habs]
  nlinarith

lemma dist_EW : 2 < _haversine_distance 0 (1 / 100) 0 (-(1 / 100)) := by
  have hpi := Real.pi_pos
  have hgt := Real.pi_gt_d2
  have habs : |radians (-(1 / 100)) - radians (1 / 100)| = Real.pi / 9000 := by
    rw [show radians (-(1 / 100)) - radians (1 / 100) = -(Real.pi / 9000) from by
      unfold radians; ring]
    rw [abs_neg, abs_of_nonneg (by positivity)]
  rw [haversine_equator (1 / 100) (-(1 / 100)) (by rw [habs]; nlinarith), habs]
  nlinarith

lemma matches_SE : issueMatches issueS issueE 2 = true := by
  unfold issueMatches
  rw [Bool.and_eq_true, decide_eq_true_eq, decide_eq_true_eq]
  exact ⟨by decide, dist_SE⟩

lemma matches_SW : issueMatches issueS issueW 2 = true := by
  unfold issueMatches
  rw [Bool.and_eq_true, decide_eq_true_eq, decide_eq_true_eq]
  exact ⟨by decide, dist_SW⟩

lemma cluster_SEW : cluster_nearby_issues [issueS, issueE, issueW] 2 =
    [[issueS, issueE, issueW]] := by
  rw [cluster_cons]
  simp [List.filter_cons, matches_SE, matches_SW, cluster_nil]

lemma foldl_add_eq_sum (f : BostonIssue → ℝ) :
    ∀ (l : List BostonIssue) (init : ℝ),
      l.foldl (fun acc issue => acc + f issue) init = init + (l.map f).sum := by
  intro l
  induction l with
  | nil =>
    intro init
    simp
  | cons a t ih =>
    intro init
    simp only [List.foldl_cons, List.map_cons, List.sum_cons, ih]
    ring

end FinalBostonScraper

/-- C1: Partition — for every input list of records and every threshold, the
concatenation of the clusters returned by
`FinalBostonScraper.cluster_nearby_issues` is a permutation of the input list,
so each input record (with multiplicity) appears in exactly one output cluster:
no duplicates and no omissions. -/
theorem cluster_partition (issues : List FinalBostonScraper.BostonIssue) (maxd : ℝ) :
    ((FinalBostonScraper.cluster_nearby_issues issues maxd).flatten).Perm issues :=
  FinalBostonScraper.cluster_perm_aux issues.length issues le_rfl maxd

/-- C2 (counterexample): the claim is false for the also-cited
`Open311Scraper.cluster_nearby_issues` of worker/event_scraping.py — that
variant checks only distance, so two co-located records whose texts the
scraper's own category logic (`_determine_event_category`, applied to each
record alone) classifies differently land in one cluster. -/
theorem open311_cluster_mixes_categories :
    Open311Scraper.cluster_nearby_issues [Open311Scraper.o311A, Open311Scraper.o311B] 1 =
      [[Open311Scraper.o311A, Open311Scraper.o311B]] ∧
    Open311Scraper._determine_event_category [Open311Scraper.o311B] ≠
      Open311Scraper._determine_event_category [Open311Scraper.o311A] :=
  ⟨Open311Scraper.o311_cluster_AB, by decide⟩

/-- C2 (amended): for `FinalBostonScraper.cluster_nearby_issues` the claim
holds — every member of every returned cluster has the same category, as
computed by `categorize_issue`, as the cluster's seed (its first element). -/
theorem boston_cluster_category_homogeneity
    (issues : List FinalBostonScraper.BostonIssue) (maxd : ℝ)
    (seed : FinalBostonScraper.BostonIssue) (rest : List FinalBostonScraper.BostonIssue)
    (hc : (seed :: rest) ∈ FinalBostonScraper.cluster_nearby_issues issues maxd)
    (m : FinalBostonScraper.BostonIssue) (hm : m ∈ rest) :
    FinalBostonScraper.categorize_issue m = FinalBostonScraper.categorize_issue seed := by
  obtain ⟨s, r, heq, hall⟩ := FinalBostonScraper.cluster_shape issues maxd _ hc
  injection heq with h1 h2
  subst h1
  subst h2
  have h := hall m hm
  unfold FinalBostonScraper.issueMatches at h
  rw [Bool.and_eq_true, decide_eq_true_eq, decide_eq_true_eq] at h
  exact h.1

/-- C2 witness: a concrete two-record cluster on which the amended theorem
applies with all hypotheses discharged. -/
theorem boston_cluster_category_homogeneity_witness :
    (FinalBostonScraper.issueA :: [FinalBostonScraper.issueB]) ∈
      FinalBostonScraper.cluster_nearby_issues
        [FinalBostonScraper.issueA, FinalBostonScraper.issueB] 1 ∧
    FinalBostonScraper.issueB ∈ [FinalBostonScraper.issueB] ∧
    FinalBostonScraper.categorize_issue FinalBostonScraper.issueB =
      FinalBostonScraper.categorize_issue FinalBostonScraper.issueA :=
  ⟨by rw [FinalBostonScraper.cluster_AB]; exact List.mem_singleton.mpr rfl,
   List.mem_singleton.mpr rfl,
   boston_cluster_category_homogeneity
     [FinalBostonScraper.issueA, FinalBostonScraper.issueB] 1
     FinalBostonScraper.issueA [FinalBostonScraper.issueB]
     (by rw [FinalBostonScraper.cluster_AB]; exact List.mem_singleton.mpr rfl)
     FinalBostonScraper.issueB (List.mem_singleton.mpr rfl)⟩

/-- C3: Distance bound — every non-seed member `m` of a cluster returned by
`FinalBostonScraper.cluster_nearby_issues` lies within `max_distance_km` of the
cluster's seed, in `_haversine_distance`. -/
theorem boston_cluster_distance_bound
    (issues : List FinalBostonScraper.BostonIssue) (maxd : ℝ)
    (seed : FinalBostonScraper.BostonIssue) (rest : List FinalBostonScraper.BostonIssue)
    (hc : (seed :: rest) ∈ FinalBostonScraper.cluster_nearby_issues issues maxd)
    (m : FinalBostonScraper.BostonIssue) (hm : m ∈ rest) :
    FinalBostonScraper._haversine_distance seed.latitude seed.longitude
      m.latitude m.longitude ≤ maxd := by
  obtain ⟨s, r, heq, hall⟩ := FinalBostonScraper.cluster_shape issues maxd _ hc
  injection heq with h1 h2
  subst h1
  subst h2
  have h := hall m hm
  unfold FinalBostonScraper.issueMatches at h
  rw [Bool.and_eq_true, decide_eq_true_eq, decide_eq_true_eq] at h
  exact h.2

/-- C3 witness: a concrete two-record cluster on which the distance bound
applies with all hypotheses discharged. -/
theorem boston_cluster_distance_bound_witness :
    (FinalBostonScraper.issueA :: [FinalBostonScraper.issueB]) ∈
      FinalBostonScraper.cluster_nearby_issues
        [FinalBostonScraper.issueA, FinalBostonScraper.issueB] 1 ∧
    FinalBostonScraper.issueB ∈ [FinalBostonScraper.issueB] ∧
    FinalBostonScraper._haversine_distance
      FinalBostonScraper.issueA.latitude FinalBostonScraper.issueA.longitude
      FinalBostonScraper.issueB.latitude FinalBostonScraper.issueB.longitude ≤ 1 :=
  ⟨by rw [FinalBostonScraper.cluster_AB]; exact List.mem_singleton.mpr rfl,
   List.mem_singleton.mpr rfl,
   boston_cluster_distance_bound
     [FinalBostonScraper.issueA, FinalBostonScraper.issueB] 1
     FinalBostonScraper.issueA [FinalBostonScraper.issueB]
     (by rw [FinalBostonScraper.cluster_AB]; exact List.mem_singleton.mpr rfl)
     FinalBostonScraper.issueB (List.mem_singleton.mpr rfl)⟩

/-- C4 (counterexample): the claim is false for the also-cited
`EnhancedEventScraper.categorize_issue` of worker/enhanced_event_scraper.py —
on a record matching no keyword or complaint-type entry of any category it
returns `none` (Python `None`), an absent result, not `cleanup`. -/
theorem enhanced_categorizer_absent_result :
    (∀ p ∈ EnhancedEventScraper.ENVIRONMENTAL_MAPPINGS,
      EnhancedEventScraper.mappingMatches p.2
        EnhancedEventScraper.envEmpty.complaint_type
        (lower (EnhancedEventScraper.envEmpty.complaint_type ++ " " ++
          EnhancedEventScraper.envEmpty.descriptor)) = false) ∧
    EnhancedEventScraper.categorize_issue EnhancedEventScraper.envEmpty = none := by
  decide

/-- C4 (amended): for `FinalBostonScraper.categorize_issue` the claim holds —
a record whose text fields match no case-title, subject or keyword entry of any
category of `ENVIRONMENTAL_CATEGORIES` is assigned `cleanup` (never an error,
never `other`, never an absent result, the function being total into
`EventCategory`); the `EnhancedEventScraper` variant instead returns `None` for
such a record. -/
theorem boston_categorizer_fallback (issue : FinalBostonScraper.BostonIssue)
    (h : ∀ p ∈ FinalBostonScraper.ENVIRONMENTAL_CATEGORIES,
      FinalBostonScraper.matchesCategory p.2 (lower issue.case_title)
        (lower issue.subject) (lower issue.reason) = false) :
    FinalBostonScraper.categorize_issue issue = EventCategory.cleanup := by
  have hnone : FinalBostonScraper.ENVIRONMENTAL_CATEGORIES.find? (fun p =>
      FinalBostonScraper.matchesCategory p.2
        (lower issue.case_title) (lower issue.subject) (lower issue.reason)) = none := by
    rw [List.find?_eq_none]
    intro p hp
    rw [h p hp]
    exact Bool.false_ne_true
  unfold FinalBostonScraper.categorize_issue
  rw [hnone]

/-- C4 witness: the fallback theorem applied to a concrete record with empty
text fields, all hypotheses discharged by evaluation. -/
theorem boston_categorizer_fallback_witness :
    (∀ p ∈ FinalBostonScraper.ENVIRONMENTAL_CATEGORIES,
      FinalBostonScraper.matchesCategory p.2
        (lower FinalBostonScraper.bostonEmpty.case_title)
        (lower FinalBostonScraper.bostonEmpty.subject)
        (lower FinalBostonScraper.bostonEmpty.reason) = false) ∧
    FinalBostonScraper.categorize_issue FinalBostonScraper.bostonEmpty =
      EventCategory.cleanup :=
  ⟨by decide, boston_categorizer_fallback FinalBostonScraper.bostonEmpty (by decide)⟩

/-- C5: the code's `_haversine_distance` coincides, for all real inputs, with
the spec's reference equation `6371 · 2·asin(√a)`,
`a = sin²(Δlat/2) + cos(lat1)·cos(lat2)·sin²(Δlng/2)`, all angles in radians
(`haversineSpec`, written from the spec's words). -/
theorem haversine_matches_spec_formula (lat1 lng1 lat2 lng2 : ℝ) :
    FinalBostonScraper._haversine_distance lat1 lng1 lat2 lng2 =
      haversineSpec lat1 lng1 lat2 lng2 := by
  unfold FinalBostonScraper._haversine_distance haversineSpec
    FinalBostonScraper.haversine_a
  ring

/-- C6: single-hop clustering — a concrete input (three equator records of one
category, the outer two 0.01 degrees of longitude on either side of the seed)
and threshold 2 km on which `FinalBostonScraper.cluster_nearby_issues` returns
one cluster whose two non-seed members are pairwise farther apart than the
threshold: membership is decided only against the seed, not transitively. -/
theorem cluster_single_hop_not_transitive :
    FinalBostonScraper.cluster_nearby_issues
      [FinalBostonScraper.issueS, FinalBostonScraper.issueE, FinalBostonScraper.issueW] 2 =
      [[FinalBostonScraper.issueS, FinalBostonScraper.issueE, FinalBostonScraper.issueW]] ∧
    2 < FinalBostonScraper._haversine_distance
      FinalBostonScraper.issueE.latitude FinalBostonScraper.issueE.longitude
      FinalBostonScraper.issueW.latitude FinalBostonScraper.issueW.longitude :=
  ⟨FinalBostonScraper.cluster_SEW, FinalBostonScraper.dist_EW⟩

/-- C7: domain safety of the haversine computation — for latitudes within
[-90, 90] the intermediate `a` of `_haversine_distance` is non-negative (so
`sqrt` receives a non-negative argument) and `√a ≤ 1` (so `asin` receives an
argument in its domain [-1, 1]); with that, the embedded `categorize_issue`
and `cluster_nearby_issues` are total functions. -/
theorem haversine_domain_safety (lat1 lng1 lat2 lng2 : ℝ)
    (h1 : -90 ≤ lat1) (h2 : lat1 ≤ 90) (h3 : -90 ≤ lat2) (h4 : lat2 ≤ 90) :
    0 ≤ FinalBostonScraper.haversine_a lat1 lng1 lat2 lng2 ∧
    Real.sqrt (FinalBostonScraper.haversine_a lat1 lng1 lat2 lng2) ≤ 1 :=
  ⟨FinalBostonScraper.haversine_a_nonneg lat1 lng1 lat2 lng2 h1 h2 h3 h4,
   Real.sqrt_le_one.mpr (FinalBostonScraper.haversine_a_le_one lat1 lng1 lat2 lng2 h1 h2 h3 h4)⟩

/-- C7 witness: domain safety at the concrete coordinates (0, 0) and (0, 0). -/
theorem haversine_domain_safety_witness :
    ((-90 : ℝ) ≤ 0 ∧ (0 : ℝ) ≤ 90) ∧
    0 ≤ FinalBostonScraper.haversine_a 0 0 0 0 ∧
    Real.sqrt (FinalBostonScraper.haversine_a 0 0 0 0) ≤ 1 :=
  ⟨⟨by norm_num, by norm_num⟩,
   haversine_domain_safety 0 0 0 0 (by norm_num) (by norm_num) (by norm_num) (by norm_num)⟩

/-- C8: the cluster center computed by `create_event_from_cluster` (the Python
`sum`-then-divide, embedded as `FinalBostonScraper.clusterCenter`) equals, for
every non-empty cluster, the arithmetic mean of the members' latitudes and of
their longitudes (`clusterCenterSpec`, written from the spec's words). -/
theorem cluster_center_matches_spec_mean
    (cluster : List FinalBostonScraper.BostonIssue) (hne : cluster ≠ []) :
    FinalBostonScraper.clusterCenter cluster = clusterCenterSpec cluster := by
  unfold FinalBostonScraper.clusterCenter clusterCenterSpec
  rw [FinalBostonScraper.foldl_add_eq_sum (fun issue => issue.latitude) cluster 0,
    FinalBostonScraper.foldl_add_eq_sum (fun issue => issue.longitude) cluster 0,
    zero_add, zero_add]

/-- C8 witness: the center of the concrete singleton cluster `[issueA]`. -/
theorem cluster_center_matches_spec_mean_witness :
    [FinalBostonScraper.issueA] ≠ [] ∧
    FinalBostonScraper.clusterCenter [FinalBostonScraper.issueA] =
      clusterCenterSpec [FinalBostonScraper.issueA] :=
  ⟨by simp,
   cluster_center_matches_spec_mean [FinalBostonScraper.issueA] (by simp)⟩

/-- C9: algebraic properties of `_haversine_distance` — it is symmetric in its
two points, non-negative for all inputs, and zero for identical points. -/
theorem haversine_symm_nonneg_self (lat1 lng1 lat2 lng2 : ℝ) :
    FinalBostonScraper._haversine_distance lat1 lng1 lat2 lng2 =
      FinalBostonScraper._haversine_distance lat2 lng2 lat1 lng1 ∧
    0 ≤ FinalBostonScraper._haversine_distance lat1 lng1 lat2 lng2 ∧
    FinalBostonScraper._haversine_distance lat1 lng1 lat1 lng1 = 0 :=
  ⟨FinalBostonScraper.haversine_symm lat1 lng1 lat2 lng2,
   FinalBostonScraper.haversine_nonneg lat1 lng1 lat2 lng2,
   FinalBostonScraper.haversine_self lat1 lng1⟩

/-- C10: `FinalBostonScraper.categorize_issue` only ever returns `cleanup`,
`advocacy` or `education`; the `other` member declared in `EventCategory`
(worker/models.py) is never produced, for any input record. -/
theorem categorizer_never_other (issue : FinalBostonScraper.BostonIssue) :
    FinalBostonScraper.categorize_issue issue = EventCategory.cleanup ∨
    FinalBostonScraper.categorize_issue issue = EventCategory.advocacy ∨
    FinalBostonScraper.categorize_issue issue = EventCategory.education := by
  rcases hfind : FinalBostonScraper.ENVIRONMENTAL_CATEGORIES.find? (fun p =>
      FinalBostonScraper.matchesCategory p.2 (lower issue.case_title)
        (lower issue.subject) (lower issue.reason)) with _ | p
  · left
    unfold FinalBostonScraper.categorize_issue
    rw [hfind]
  · have hp := List.mem_of_find?_eq_some hfind
    have hres : FinalBostonScraper.categorize_issue issue = p.1 := by
      unfold FinalBostonScraper.categorize_issue
      rw [hfind]
    rw [hres]
    simp only [FinalBostonScraper.ENVIRONMENTAL_CATEGORIES, List.mem_cons,
      List.mem_singleton, List.not_mem_nil, or_false] at hp
    rcases hp with rfl | rfl | rfl
    · left
      rfl
    · right
      left
      rfl
    · right
      right
      rfl
